import Mathlib

/-!
Verification of the blog-post CRUD service
(`controllers/postController.js` together with the mongoose schema in
`models/Post.js`).

Shallow embedding conventions:
* Text is modelled as `List Char` (one entry per UTF-16 unit of the ASCII
  strings involved), so that everything evaluates inside the kernel.
* A JSON request-body field is `Option JVal`: `none` is JavaScript
  `undefined` (the key is absent), and `JVal` covers `null`, strings,
  integers and booleans, enough to express the controller's truthiness
  checks and the store's string casting.
* The document store is a `List Post`.  Store primitives that the service
  relies on (unique-id generation, `Date.now`, `$regex : 'i'` matching of a
  metacharacter-free pattern, sort/skip/limit) are modelled as: the fresh id
  and the clock are oracle parameters of the operations, `$regex` with the
  `i` option is case-insensitive substring containment, and the
  `createdAt: -1` sort is a stable sort by `createdAt` descending.
* Mongoose validation is embedded per schema field: the `trim` setter runs
  first, then the validators in order (`required`, `minlength`,
  `maxlength`); the first failing validator contributes that field's single
  error message, exactly the messages declared in the schema.
-/

/-- JavaScript values that can appear in a parsed JSON body field. -/
inductive JVal where
  | jnull
  | jstr (s : List Char)
  | jnum (n : Int)
  | jbool (b : Bool)
deriving DecidableEq

/-- JavaScript truthiness of a `JVal` (`null`, `""`, `0`, `false` are falsy). -/
def truthy : JVal → Bool
  | .jnull => false
  | .jstr [] => false
  | .jstr (_ :: _) => true
  | .jnum n => decide (n ≠ 0)
  | .jbool b => b

/-- Truthiness of an optional body field: an absent field (`undefined`) is falsy;
the controller's `!title` check is `jsFalsyField title`. -/
def jsFalsyField : Option JVal → Bool
  | none => true
  | some v => !truthy v

/-- A field is absent from the body or holds one of JavaScript's falsy values. -/
def absentOrFalsy (v : Option JVal) : Prop :=
  v = none ∨ v = some .jnull ∨ v = some (.jstr []) ∨ v = some (.jnum 0) ∨
    v = some (.jbool false)

/-- Decimal digit character. -/
def digitChar (n : Nat) : Char := Char.ofNat (48 + n)

/-- Fuel-driven decimal rendering of a natural number (structural, so the
kernel can evaluate it). -/
def natCharsAux : Nat → Nat → List Char
  | 0, _ => []
  | fuel + 1, n =>
    if n < 10 then [digitChar n]
    else natCharsAux fuel (n / 10) ++ [digitChar (n % 10)]

/-- Decimal rendering of a natural number. -/
def natChars (n : Nat) : List Char := natCharsAux (n + 1) n

/-- Decimal rendering of an integer, as JavaScript's `String(n)`. -/
def intChars : Int → List Char
  | .ofNat n => natChars n
  | .negSucc n => '-' :: natChars (n + 1)

/-- Mongoose cast of a JavaScript value to a `String` schema path: `null`
stays null, strings are kept, numbers and booleans are stringified via their
`toString`. -/
def castToStr : JVal → Option (List Char)
  | .jnull => none
  | .jstr s => some s
  | .jnum n => some (intChars n)
  | .jbool true => some "true".data
  | .jbool false => some "false".data

/-- JavaScript `String.prototype.trim`: strip leading and trailing whitespace. -/
def jsTrim (s : List Char) : List Char :=
  ((s.dropWhile Char.isWhitespace).reverse.dropWhile Char.isWhitespace).reverse

/-- Cast a provided field value and run the schema's `trim` setter. -/
def trimCast (v : JVal) : Option (List Char) := (castToStr v).map jsTrim

/-- Cast-and-trim of an optional body field. -/
def castField (v : Option JVal) : Option (List Char) := v.bind trimCast

/-- A persisted blog post, externally exposed with `id` plus the three text
fields and the two timestamps. -/
structure Post where
  id : List Char
  title : List Char
  content : List Char
  author : List Char
  createdAt : Nat
  updatedAt : Nat
deriving DecidableEq

/-- Schema message: title missing. -/
def titleMsgReq : List Char := "Title is required".data

/-- Schema message: title below minlength 3. -/
def titleMsgMin : List Char := "Title must be at least 3 characters long".data

/-- Schema message: title above maxlength 100. -/
def titleMsgMax : List Char := "Title cannot exceed 100 characters".data

/-- Schema message: content missing. -/
def contentMsgReq : List Char := "Content is required".data

/-- Schema message: content below minlength 10. -/
def contentMsgMin : List Char := "Content must be at least 10 characters long".data

/-- Schema message: author missing. -/
def authorMsgReq : List Char := "Author name is required".data

/-- Schema message: author below minlength 2. -/
def authorMsgMin : List Char := "Author name must be at least 2 characters long".data

/-- Schema message: author above maxlength 50. -/
def authorMsgMax : List Char := "Author name cannot exceed 50 characters".data

/-- Validation of the `title` path on the cast-and-trimmed value: `required`
first (null and the empty string fail it), then `minlength 3`, then
`maxlength 100`; the first failing validator supplies the path's message. -/
def titleError : Option (List Char) → Option (List Char)
  | none => some titleMsgReq
  | some s =>
    if s.length = 0 then some titleMsgReq
    else if s.length < 3 then some titleMsgMin
    else if 100 < s.length then some titleMsgMax
    else none

/-- Validation of the `content` path: `required`, then `minlength 10`
(no maxlength). -/
def contentError : Option (List Char) → Option (List Char)
  | none => some contentMsgReq
  | some s =>
    if s.length = 0 then some contentMsgReq
    else if s.length < 10 then some contentMsgMin
    else none

/-- Validation of the `author` path: `required`, then `minlength 2`, then
`maxlength 50`. -/
def authorError : Option (List Char) → Option (List Char)
  | none => some authorMsgReq
  | some s =>
    if s.length = 0 then some authorMsgReq
    else if s.length < 2 then some authorMsgMin
    else if 50 < s.length then some authorMsgMax
    else none

/-- Parsed JSON body of `POST /api/posts`.  The controller destructures only
`title`, `content`, `author`; everything else the client sent is in `extra`. -/
structure CreateBody where
  title : Option JVal := none
  content : Option JVal := none
  author : Option JVal := none
  extra : List (List Char × JVal) := []
deriving DecidableEq

/-- Outcome of `createPost`. -/
inductive CreateResult where
  | missingFields (msg : List Char)
  | validationFailed (errors : List (List Char))
  | created (p : Post)
deriving DecidableEq

/-- The controller's missing-field message. -/
def missingFieldsMsg : List Char :=
  "Please provide all required fields: title, content, and author".data

/-- Validation errors raised by `Post.create` on a create body: one message
per violated path, in schema path order. -/
def createErrors (body : CreateBody) : List (List Char) :=
  List.filterMap id
    [titleError (castField body.title), contentError (castField body.content),
     authorError (castField body.author)]

/-- The document inserted on a successful create: system-generated id,
cast-and-trimmed text fields, both timestamps set to the current time. -/
def newPost (body : CreateBody) (freshId : List Char) (now : Nat) : Post :=
  { id := freshId, title := (castField body.title).getD [],
    content := (castField body.content).getD [],
    author := (castField body.author).getD [],
    createdAt := now, updatedAt := now }

/-- `createPost` (`POST /api/posts`): reject when any of the three
destructured fields is falsy, otherwise delegate to the store's insert, which
validates and either fails or persists the new document. -/
def createPost (body : CreateBody) (freshId : List Char) (now : Nat)
    (store : List Post) : CreateResult × List Post :=
  if jsFalsyField body.title || jsFalsyField body.content || jsFalsyField body.author then
    (.missingFields missingFieldsMsg, store)
  else
    match createErrors body with
    | [] => (.created (newPost body freshId now), store ++ [newPost body freshId now])
    | e :: es => (.validationFailed (e :: es), store)

/-- HTTP status of a create outcome. -/
def createStatus : CreateResult → Nat
  | .missingFields _ => 400
  | .validationFailed _ => 400
  | .created _ => 201

/-- Hexadecimal digit. -/
def isHexDigitChar (c : Char) : Bool :=
  (('0' ≤ c) && (c ≤ '9')) || (('a' ≤ c) && (c ≤ 'f')) || (('A' ≤ c) && (c ≤ 'F'))

/-- `mongoose.Types.ObjectId.isValid` on a string: a 24-character hex string,
or any 12-character string (interpreted as 12 bytes). -/
def isValidObjectId (s : List Char) : Bool :=
  (s.length == 24 && s.all isHexDigitChar) || s.length == 12

/-- The controller's invalid-id message. -/
def invalidIdMsg : List Char := "Invalid post ID format".data

/-- The controller's not-found message. -/
def notFoundMsg : List Char := "Post not found".data

/-- `Model.findById`: first document whose id matches. -/
def findById (store : List Post) (i : List Char) : Option Post :=
  store.find? (fun p => p.id == i)

/-- Outcome of `getPostById`. -/
inductive GetResult where
  | invalidId (msg : List Char)
  | notFound (msg : List Char)
  | found (p : Post)
deriving DecidableEq

/-- `getPostById` (`GET /api/posts/:id`). -/
def getPostById (i : List Char) (store : List Post) : GetResult :=
  if !isValidObjectId i then .invalidId invalidIdMsg
  else
    match findById store i with
    | none => .notFound notFoundMsg
    | some p => .found p

/-- HTTP status of a get-by-id outcome. -/
def getStatus : GetResult → Nat
  | .invalidId _ => 400
  | .notFound _ => 404
  | .found _ => 200

/-- Parsed JSON body of `PUT /api/posts/:id`; as for create, only the three
recognised keys are destructured. -/
structure UpdateBody where
  title : Option JVal := none
  content : Option JVal := none
  author : Option JVal := none
  extra : List (List Char × JVal) := []
deriving DecidableEq

/-- Outcome of `updatePost`. -/
inductive UpdateResult where
  | invalidId (msg : List Char)
  | noFields (msg : List Char)
  | validationFailed (errors : List (List Char))
  | notFound (msg : List Char)
  | updated (p : Post)
deriving DecidableEq

/-- The controller's empty-update message. -/
def noFieldsMsg : List Char := "No fields provided for update".data

/-- Update validators (`runValidators: true`): they run exactly on the paths
present in the update object, on the cast-and-trimmed `$set` values, before
the store looks the document up. -/
def updateErrors (body : UpdateBody) : List (List Char) :=
  List.filterMap id
    [body.title.bind (fun v => titleError (trimCast v)),
     body.content.bind (fun v => contentError (trimCast v)),
     body.author.bind (fun v => authorError (trimCast v))]

/-- The merged document produced by `findByIdAndUpdate`: provided paths are
overwritten with their cast-and-trimmed values, missing paths keep their
stored values, `updatedAt` is refreshed by the `timestamps` option and
`createdAt` is untouched. -/
def mergePost (p : Post) (body : UpdateBody) (now : Nat) : Post :=
  { p with
    title := match body.title with
      | none => p.title
      | some v => (trimCast v).getD p.title
    content := match body.content with
      | none => p.content
      | some v => (trimCast v).getD p.content
    author := match body.author with
      | none => p.author
      | some v => (trimCast v).getD p.author
    updatedAt := now }

/-- Replace the first document with the given id. -/
def replaceById (store : List Post) (i : List Char) (q : Post) : List Post :=
  match store with
  | [] => []
  | p :: t => if p.id == i then q :: t else p :: replaceById t i q

/-- `updatePost` (`PUT /api/posts/:id`): id syntax check, then the
only-provided-fields update object, then the empty-update check, then
`findByIdAndUpdate` with `runValidators` (validation precedes the lookup). -/
def updatePost (i : List Char) (body : UpdateBody) (now : Nat)
    (store : List Post) : UpdateResult × List Post :=
  if !isValidObjectId i then (.invalidId invalidIdMsg, store)
  else if body.title.isNone && body.content.isNone && body.author.isNone then
    (.noFields noFieldsMsg, store)
  else
    match updateErrors body with
    | e :: es => (.validationFailed (e :: es), store)
    | [] =>
      match findById store i with
      | none => (.notFound notFoundMsg, store)
      | some p => (.updated (mergePost p body now), replaceById store i (mergePost p body now))

/-- HTTP status of an update outcome. -/
def updateStatus : UpdateResult → Nat
  | .invalidId _ => 400
  | .noFields _ => 400
  | .validationFailed _ => 400
  | .notFound _ => 404
  | .updated _ => 200

/-- Outcome of `deletePost`. -/
inductive DeleteResult where
  | invalidId (msg : List Char)
  | notFound (msg : List Char)
  | deleted
deriving DecidableEq

/-- Remove the first document with the given id. -/
def deleteById (store : List Post) (i : List Char) : List Post :=
  match store with
  | [] => []
  | p :: t => if p.id == i then t else p :: deleteById t i

/-- `deletePost` (`DELETE /api/posts/:id`). -/
def deletePost (i : List Char) (store : List Post) : DeleteResult × List Post :=
  if !isValidObjectId i then (.invalidId invalidIdMsg, store)
  else
    match findById store i with
    | none => (.notFound notFoundMsg, store)
    | some _ => (.deleted, deleteById store i)

/-- HTTP status of a delete outcome. -/
def deleteStatus : DeleteResult → Nat
  | .invalidId _ => 400
  | .notFound _ => 404
  | .deleted => 200

/-- Lower-case a string character by character. -/
def lowerStr (s : List Char) : List Char := s.map Char.toLower

/-- Contiguous-substring test: does `hay` contain `pat`? -/
def listContains (pat : List Char) : List Char → Bool
  | [] => pat.isEmpty
  | c :: t => pat.isPrefixOf (c :: t) || listContains pat t

/-- `hay` contains `pat` as a contiguous substring (propositional form). -/
def SubStr (pat hay : List Char) : Prop := ∃ l r, hay = l ++ pat ++ r

/-- The store's `$regex` with option `i` on a metacharacter-free pattern:
case-insensitive substring containment. -/
def containsCI (hay pat : List Char) : Bool := listContains (lowerStr pat) (lowerStr hay)

/-- The mongo filter built by `getAllPosts`: the author condition when the
`author` query value is truthy, conjoined with the `$or` of the title and
content conditions when the `search` query value is truthy. -/
def matchesQuery (authorQ searchQ : Option (List Char)) (p : Post) : Bool :=
  (match authorQ with
   | none => true
   | some [] => true
   | some (c :: t) => containsCI p.author (c :: t)) &&
  (match searchQ with
   | none => true
   | some [] => true
   | some (c :: t) => containsCI p.title (c :: t) || containsCI p.content (c :: t))

/-- Sort key of `.sort(\x7b createdAt: -1 \x7d)`: newest first. -/
def createdDesc (a b : Post) : Prop := b.createdAt ≤ a.createdAt

instance : DecidableRel createdDesc := fun a b => Nat.decLe b.createdAt a.createdAt

instance : IsTotal Post createdDesc := ⟨fun a b => Nat.le_total b.createdAt a.createdAt⟩

instance : IsTrans Post createdDesc := ⟨fun _ _ _ hab hbc => Nat.le_trans hbc hab⟩

/-- The store's `createdAt`-descending sort (stable, so ties keep the store's
natural order). -/
def sortByCreatedAtDesc (l : List Post) : List Post := List.insertionSort createdDesc l

/-- Response shape of `GET /api/posts`. -/
structure ListResult where
  count : Nat
  total : Nat
  page : Nat
  pages : Nat
  data : List Post
deriving DecidableEq

/-- `Math.ceil (n / l)` for a positive integer divisor. -/
def jsCeilDiv (n l : Nat) : Nat := (n + l - 1) / l

/-- `getAllPosts` (`GET /api/posts`) after query parsing: filter, sort by
`createdAt` descending, skip `(page - 1) * limit`, take `limit`, and report
the pre-pagination total and the page count `ceil (total / limit)`. -/
def listPosts (authorQ searchQ : Option (List Char)) (page limit : Nat)
    (store : List Post) : ListResult :=
  { count := (((sortByCreatedAtDesc (store.filter (matchesQuery authorQ searchQ))).drop
      ((page - 1) * limit)).take limit).length,
    total := (store.filter (matchesQuery authorQ searchQ)).length,
    page := page,
    pages := jsCeilDiv (store.filter (matchesQuery authorQ searchQ)).length limit,
    data := ((sortByCreatedAtDesc (store.filter (matchesQuery authorQ searchQ))).drop
      ((page - 1) * limit)).take limit }

/-- Leading decimal-digit run. -/
def leadDigits (s : List Char) : List Char := s.takeWhile Char.isDigit

/-- Value of a digit character. -/
def digitVal (c : Char) : Nat := c.toNat - 48

/-- Numeric value of a digit run. -/
def digitsToNat (ds : List Char) : Nat := ds.foldl (fun acc c => acc * 10 + digitVal c) 0

/-- Digit-run parse; `none` when the run is empty. -/
def parseDigits (s : List Char) : Option Nat :=
  match leadDigits s with
  | [] => none
  | d :: ds => some (digitsToNat (d :: ds))

/-- JavaScript `parseInt(s, 10)`: skip leading whitespace, optional sign,
longest decimal-digit run; `none` models `NaN`. -/
def jsParseInt (s : List Char) : Option Int :=
  match s.dropWhile Char.isWhitespace with
  | '-' :: rest => (parseDigits rest).map (fun n => -(n : Int))
  | '+' :: rest => (parseDigits rest).map (fun n => (n : Int))
  | rest => (parseDigits rest).map (fun n => (n : Int))

/-- `parseInt(req.query.page, 10) || 1`: an absent value parses to `NaN`, and
`NaN` and `0` fall back to the default `1`. -/
def pageOf (q : Option (List Char)) : Int :=
  match q with
  | none => 1
  | some s =>
    match jsParseInt s with
    | none => 1
    | some n => if n = 0 then 1 else n

/-- `parseInt(req.query.limit, 10) || 10`. -/
def limitOf (q : Option (List Char)) : Int :=
  match q with
  | none => 10
  | some s =>
    match jsParseInt s with
    | none => 10
    | some n => if n = 0 then 10 else n

/-- One expected message per violated length constraint, in schema order:
the exact strings a client sees in a `ValidationError` payload when every
required field is present (non-empty after trimming). -/
def lengthMsgs (t c a : List Char) : List (List Char) :=
  (if t.length < 3 then [titleMsgMin] else if 100 < t.length then [titleMsgMax] else []) ++
  (if c.length < 10 then [contentMsgMin] else []) ++
  (if a.length < 2 then [authorMsgMin] else if 50 < a.length then [authorMsgMax] else [])

/-- A syntactically valid ObjectId (24 hex characters). -/
def demoId : List Char := "aaaaaaaaaaaaaaaaaaaaaaaa".data

/-- A second valid ObjectId, distinct from `demoId`. -/
def demoIdB : List Char := "bbbbbbbbbbbbbbbbbbbbbbbb".data

/-- A third valid ObjectId. -/
def demoIdC : List Char := "cccccccccccccccccccccccc".data

/-- Sample persisted post. -/
def demoPost : Post :=
  ⟨demoId, "Hello World".data, "Some sufficiently long content".data, "Alice".data, 1, 1⟩

/-- Sample post, oldest of the three-post store. -/
def demoPost1 : Post :=
  ⟨demoIdC, "A title here".data, "content number one".data, "Alice".data, 1, 1⟩

/-- Sample post, middle of the three-post store. -/
def demoPost2 : Post :=
  ⟨demoIdB, "B title MongoDB".data, "content number two".data, "Bob".data, 2, 2⟩

/-- Sample post, newest of the three-post store. -/
def demoPost3 : Post :=
  ⟨demoId, "C title here".data, "content with mongodb inside".data, "Carol".data, 3, 3⟩

/-- Three-post store with distinct ids and increasing `createdAt`. -/
def demoStore : List Post := [demoPost1, demoPost2, demoPost3]

/-- Create body whose `title` is the number `123`: truthy, but not a string. -/
def demoBodyNum : CreateBody :=
  ⟨some (.jnum 123), some (.jstr "This is long enough content".data),
   some (.jstr "Alice".data), []⟩

/-- The same body with client-supplied `id` and `createdAt` keys added. -/
def demoBodyExtra : CreateBody :=
  ⟨some (.jnum 123), some (.jstr "This is long enough content".data),
   some (.jstr "Alice".data),
   [("id".data, JVal.jstr "zzz".data), ("createdAt".data, JVal.jnum 0)]⟩

/-- Update body with no recognised field. -/
def emptyUpdate : UpdateBody := ⟨none, none, none, []⟩

/-- Update body setting only the title. -/
def demoTitleUpdate : UpdateBody := ⟨some (.jstr "New Title Here".data), none, none, []⟩

/-- `demoPost` after `demoTitleUpdate` at time 7. -/
def demoPostUpd : Post :=
  ⟨demoId, "New Title Here".data, "Some sufficiently long content".data, "Alice".data, 1, 7⟩

lemma jsTrim_nil : jsTrim [] = [] := rfl

lemma ne_nil_of_trimLen {t : List Char} (h : 0 < (jsTrim t).length) : t ≠ [] := by
  intro ht
  rw [ht, jsTrim_nil] at h
  exact absurd h (by decide)

lemma jsFalsyField_jstr {s : List Char} (h : s ≠ []) :
    jsFalsyField (some (.jstr s)) = false := by
  cases s with
  | nil => exact absurd rfl h
  | cons c t => rfl

lemma jsFalsy_of_absentOrFalsy {v : Option JVal} (h : absentOrFalsy v) :
    jsFalsyField v = true := by
  rcases h with rfl | rfl | rfl | rfl | rfl <;> decide

lemma titleError_none {s : List Char} (h3 : 3 ≤ s.length) (h100 : s.length ≤ 100) :
    titleError (some s) = none := by
  simp only [titleError]
  rw [if_neg (by omega), if_neg (by omega), if_neg (by omega)]

lemma contentError_none {s : List Char} (h10 : 10 ≤ s.length) :
    contentError (some s) = none := by
  simp only [contentError]
  rw [if_neg (by omega), if_neg (by omega)]

lemma authorError_none {s : List Char} (h2 : 2 ≤ s.length) (h50 : s.length ≤ 50) :
    authorError (some s) = none := by
  simp only [authorError]
  rw [if_neg (by omega), if_neg (by omega), if_neg (by omega)]

lemma titleError_pos {s : List Char} (h : 0 < s.length) :
    titleError (some s) = (if s.length < 3 then some titleMsgMin
      else if 100 < s.length then some titleMsgMax else none) := by
  simp only [titleError]
  rw [if_neg (by omega)]

lemma contentError_pos {s : List Char} (h : 0 < s.length) :
    contentError (some s) = (if s.length < 10 then some contentMsgMin else none) := by
  simp only [contentError]
  rw [if_neg (by omega)]

lemma authorError_pos {s : List Char} (h : 0 < s.length) :
    authorError (some s) = (if s.length < 2 then some authorMsgMin
      else if 50 < s.length then some authorMsgMax else none) := by
  simp only [authorError]
  rw [if_neg (by omega)]

lemma filterMap_id_three (o1 o2 o3 : Option (List Char)) :
    List.filterMap id [o1, o2, o3] = o1.toList ++ o2.toList ++ o3.toList := by
  cases o1 <;> cases o2 <;> cases o3 <;> rfl

lemma createErrors_jstr (t c a : List Char) (e : List (List Char × JVal))
    (ht : 0 < (jsTrim t).length) (hc : 0 < (jsTrim c).length) (ha : 0 < (jsTrim a).length) :
    createErrors ⟨some (.jstr t), some (.jstr c), some (.jstr a), e⟩
      = lengthMsgs (jsTrim t) (jsTrim c) (jsTrim a) := by
  show List.filterMap id [titleError (some (jsTrim t)), contentError (some (jsTrim c)),
    authorError (some (jsTrim a))] = _
  rw [filterMap_id_three, titleError_pos ht, contentError_pos hc, authorError_pos ha]
  simp only [lengthMsgs]
  split_ifs <;> rfl

lemma updateErrors_jstr (t c a : List Char) (e : List (List Char × JVal))
    (ht : 0 < (jsTrim t).length) (hc : 0 < (jsTrim c).length) (ha : 0 < (jsTrim a).length) :
    updateErrors ⟨some (.jstr t), some (.jstr c), some (.jstr a), e⟩
      = lengthMsgs (jsTrim t) (jsTrim c) (jsTrim a) := by
  show List.filterMap id [titleError (some (jsTrim t)), contentError (some (jsTrim c)),
    authorError (some (jsTrim a))] = _
  rw [filterMap_id_three, titleError_pos ht, contentError_pos hc, authorError_pos ha]
  simp only [lengthMsgs]
  split_ifs <;> rfl

lemma lengthMsgs_ne_nil {t c a : List Char}
    (h : t.length < 3 ∨ 100 < t.length ∨ c.length < 10 ∨ a.length < 2 ∨ 50 < a.length) :
    lengthMsgs t c a ≠ [] := by
  unfold lengthMsgs
  rcases h with h | h | h | h | h <;> split_ifs <;> simp_all

lemma isPrefixOfE : ∀ (p h : List Char), p.isPrefixOf h = true ↔ ∃ r, h = p ++ r := by
  intro p
  induction p with
  | nil =>
    intro h
    simp [List.isPrefixOf]
  | cons a as ih =>
    intro h
    cases h with
    | nil =>
      simp [List.isPrefixOf]
    | cons b bs =>
      simp only [List.isPrefixOf, Bool.and_eq_true, beq_iff_eq]
      constructor
      · rintro ⟨rfl, hp⟩
        obtain ⟨r, rfl⟩ := (ih bs).mp hp
        exact ⟨r, rfl⟩
      · rintro ⟨r, hr⟩
        rw [List.cons_append] at hr
        injection hr with h1 h2
        exact ⟨h1.symm, (ih bs).mpr ⟨r, h2⟩⟩

lemma listContains_iff (pat hay : List Char) :
    listContains pat hay = true ↔ SubStr pat hay := by
  induction hay with
  | nil =>
    simp only [listContains, SubStr, List.isEmpty_iff]
    constructor
    · rintro rfl
      exact ⟨[], [], rfl⟩
    · rintro ⟨l, r, hlr⟩
      exact (List.append_eq_nil.mp (List.append_eq_nil.mp hlr.symm).1).2
  | cons c t ih =>
    simp only [listContains, Bool.or_eq_true, isPrefixOfE, ih, SubStr]
    constructor
    · rintro (⟨r, hr⟩ | ⟨l, r, hlr⟩)
      · exact ⟨[], r, by simpa using hr⟩
      · exact ⟨c :: l, r, by rw [List.cons_append, List.cons_append, ← hlr]⟩
    · rintro ⟨l, r, hlr⟩
      cases l with
      | nil =>
        left
        exact ⟨r, by simpa using hlr⟩
      | cons d l2 =>
        right
        rw [List.cons_append, List.cons_append] at hlr
        injection hlr with h1 h2
        exact ⟨l2, r, h2⟩

lemma findById_deleteById (store : List Post) (i : List Char)
    (h : (store.map Post.id).Nodup) : findById (deleteById store i) i = none := by
  induction store with
  | nil => rfl
  | cons p t ih =>
    rw [List.map_cons, List.nodup_cons] at h
    by_cases hid : (p.id == i) = true
    · have hpi : p.id = i := eq_of_beq hid
      simp only [deleteById, hid, if_true]
      rw [findById, List.find?_eq_none]
      intro q hq hbeq
      exact h.1 (hpi ▸ (eq_of_beq hbeq) ▸ List.mem_map_of_mem Post.id hq)
    · have hfalse : (p.id == i) = false := by
        cases hpi : (p.id == i) with
        | true => exact absurd hpi hid
        | false => rfl
      rw [findById]
      simp only [deleteById, hfalse, Bool.false_eq_true, if_false]
      have hstep : List.find? (fun q => q.id == i) (p :: deleteById t i)
          = List.find? (fun q => q.id == i) (deleteById t i) :=
        List.find?_cons_of_neg _ hid
      rw [hstep]
      exact ih h.2

lemma range'_map_add_one : ∀ (s k : Nat),
    List.range' (s + 1) k = (List.range' s k).map (fun m => m + 1) := by
  intro s k
  induction k generalizing s with
  | zero => rfl
  | succ k ih =>
    rw [List.range'_succ, List.range'_succ, List.map_cons]
    exact congrArg _ (ih (s + 1))

lemma jsCeilDiv_step {N L : Nat} (hL : 0 < L) (hN : 0 < N) :
    jsCeilDiv N L = jsCeilDiv (N - L) L + 1 := by
  unfold jsCeilDiv
  by_cases hNL : N ≤ L
  · have h1 : N - L = 0 := by omega
    rw [h1]
    have h2 : (0 + L - 1) / L = 0 := Nat.div_eq_of_lt (by omega)
    rw [h2]
    exact Nat.div_eq_of_lt_le (by omega) (by omega)
  · have h3 : N + L - 1 = (N - L + L - 1) + L := by omega
    rw [h3, Nat.add_div_right _ hL]

lemma flatten_chunks {α : Type} {L : Nat} (hL : 0 < L) :
    ∀ (n : Nat) (l : List α), l.length ≤ n →
      ((List.range' 1 (jsCeilDiv l.length L)).map
        (fun pg => (l.drop ((pg - 1) * L)).take L)).flatten = l := by
  intro n
  induction n with
  | zero =>
    intro l hl
    have hnil : l = [] := List.eq_nil_of_length_eq_zero (Nat.le_zero.mp hl)
    subst hnil
    have h0 : jsCeilDiv (List.length ([] : List α)) L = 0 := by
      simp [jsCeilDiv]
      exact Nat.div_eq_of_lt (by omega)
    rw [h0]
    rfl
  | succ n ih =>
    intro l hl
    rcases l with _ | ⟨x, t⟩
    · have h0 : jsCeilDiv (List.length ([] : List α)) L = 0 := by
        simp [jsCeilDiv]
        exact Nat.div_eq_of_lt (by omega)
      rw [h0]
      rfl
    · have hN : 0 < (x :: t).length := by simp
      rw [jsCeilDiv_step hL hN, List.range'_succ, List.map_cons, List.flatten_cons]
      have h1 : (((x :: t).drop ((1 - 1) * L)).take L) = (x :: t).take L := by norm_num
      rw [h1]
      rw [range'_map_add_one 1 (jsCeilDiv ((x :: t).length - L) L), List.map_map]
      have h3 : ∀ m ∈ List.range' 1 (jsCeilDiv ((x :: t).length - L) L),
          ((fun pg => (((x :: t).drop ((pg - 1) * L)).take L)) ∘ (fun m => m + 1)) m
            = (((((x :: t).drop L).drop ((m - 1) * L))).take L) := by
        intro m hm
        have hm1 : 1 ≤ m := (List.mem_range'_1.mp hm).1
        simp only [Function.comp_apply, Nat.add_sub_cancel]
        rw [List.drop_drop]
        cases m with
        | zero => omega
        | succ m2 =>
          have harith : (m2 + 1) * L = L + (m2 + 1 - 1) * L := by
            rw [Nat.add_sub_cancel, Nat.succ_mul, Nat.add_comm]
          rw [harith]
      rw [List.map_congr_left h3]
      have h4 : ((x :: t).drop L).length ≤ n := by
        rw [List.length_drop]
        simp only [List.length_cons] at hl ⊢
        omega
      have h5 := ih ((x :: t).drop L) h4
      rw [List.length_drop] at h5
      rw [h5, List.take_append_drop]

lemma sorted_sortDesc (l : List Post) :
    List.Sorted createdDesc (sortByCreatedAtDesc l) :=
  List.sorted_insertionSort createdDesc l

lemma perm_sortDesc (l : List Post) : (sortByCreatedAtDesc l).Perm l :=
  List.perm_insertionSort createdDesc l

/-- C1: for every create input whose title, content and author are present,
non-empty strings within the schema length bounds after trimming, and for a
store-generated id that is fresh, `createPost` returns 201 with a persisted
post whose text fields are exactly the trimmed inputs, whose two timestamps
are the creation time, and whose id is distinct from every other persisted
post's id; the post is appended to the store. -/
theorem create_valid_post_ok (t c a : List Char) (e : List (List Char × JVal))
    (f : List Char) (now : Nat) (store : List Post)
    (ht1 : 3 ≤ (jsTrim t).length) (ht2 : (jsTrim t).length ≤ 100)
    (hc1 : 10 ≤ (jsTrim c).length)
    (ha1 : 2 ≤ (jsTrim a).length) (ha2 : (jsTrim a).length ≤ 50)
    (hf : f ∉ store.map Post.id) :
    createPost ⟨some (.jstr t), some (.jstr c), some (.jstr a), e⟩ f now store
      = (.created ⟨f, jsTrim t, jsTrim c, jsTrim a, now, now⟩,
         store ++ [⟨f, jsTrim t, jsTrim c, jsTrim a, now, now⟩]) ∧
    createStatus (createPost ⟨some (.jstr t), some (.jstr c), some (.jstr a), e⟩ f now store).1
      = 201 ∧
    (⟨f, jsTrim t, jsTrim c, jsTrim a, now, now⟩ : Post).id ∉ store.map Post.id := by
  have htne := ne_nil_of_trimLen (show 0 < (jsTrim t).length by omega)
  have hcne := ne_nil_of_trimLen (show 0 < (jsTrim c).length by omega)
  have hane := ne_nil_of_trimLen (show 0 < (jsTrim a).length by omega)
  have hErr : createErrors ⟨some (.jstr t), some (.jstr c), some (.jstr a), e⟩ = [] := by
    show List.filterMap id [titleError (some (jsTrim t)), contentError (some (jsTrim c)),
      authorError (some (jsTrim a))] = []
    rw [titleError_none ht1 ht2, contentError_none hc1, authorError_none ha1 ha2]
    rfl
  have hmain : createPost ⟨some (.jstr t), some (.jstr c), some (.jstr a), e⟩ f now store
      = (.created ⟨f, jsTrim t, jsTrim c, jsTrim a, now, now⟩,
         store ++ [⟨f, jsTrim t, jsTrim c, jsTrim a, now, now⟩]) := by
    simp [createPost, jsFalsyField_jstr htne, jsFalsyField_jstr hcne, jsFalsyField_jstr hane,
      hErr, newPost, castField, trimCast, castToStr]
  exact ⟨hmain, by rw [hmain]; rfl, hf⟩

/-- C1 witness: a concrete valid create against a one-post store. -/
theorem create_valid_post_ok_witness :
    3 ≤ (jsTrim " My First Post ".data).length ∧
    (jsTrim " My First Post ".data).length ≤ 100 ∧
    10 ≤ (jsTrim "This content is long enough.".data).length ∧
    2 ≤ (jsTrim " Alice ".data).length ∧
    (jsTrim " Alice ".data).length ≤ 50 ∧
    demoIdB ∉ [demoPost].map Post.id ∧
    (createPost ⟨some (.jstr " My First Post ".data),
        some (.jstr "This content is long enough.".data),
        some (.jstr " Alice ".data), []⟩ demoIdB 9 [demoPost]
      = (.created ⟨demoIdB, jsTrim " My First Post ".data,
            jsTrim "This content is long enough.".data, jsTrim " Alice ".data, 9, 9⟩,
         [demoPost] ++ [⟨demoIdB, jsTrim " My First Post ".data,
            jsTrim "This content is long enough.".data, jsTrim " Alice ".data, 9, 9⟩]) ∧
     createStatus (createPost ⟨some (.jstr " My First Post ".data),
        some (.jstr "This content is long enough.".data),
        some (.jstr " Alice ".data), []⟩ demoIdB 9 [demoPost]).1 = 201 ∧
     (⟨demoIdB, jsTrim " My First Post ".data, jsTrim "This content is long enough.".data,
        jsTrim " Alice ".data, 9, 9⟩ : Post).id ∉ [demoPost].map Post.id) :=
  ⟨by decide, by decide, by decide, by decide, by decide, by decide,
   create_valid_post_ok " My First Post ".data "This content is long enough.".data
     " Alice ".data [] demoIdB 9 [demoPost]
     (by decide) (by decide) (by decide) (by decide) (by decide) (by decide)⟩

/-- C2 counterexample: a create body whose title is the number `123` — not a
string at all, let alone a non-empty one — passes the controller's falsiness
check, reaches the store insert, and succeeds with 201 (the number is cast to
the string "123"), instead of failing with 400 and the missing-field
message as the claim states. -/
theorem create_missing_claim_cex :
    createPost demoBodyNum demoIdB 5 []
      = (.created ⟨demoIdB, "123".data, "This is long enough content".data, "Alice".data, 5, 5⟩,
         [⟨demoIdB, "123".data, "This is long enough content".data, "Alice".data, 5, 5⟩]) ∧
    createStatus (createPost demoBodyNum demoIdB 5 []).1 = 201 ∧
    createStatus (createPost demoBodyNum demoIdB 5 []).1 ≠ 400 := by
  decide

/-- C2 (amended): for every create input in which any of title, content or
author is absent or holds a falsy value (null, the empty string, the number
0, or false), `createPost` replies 400 with the missing-field message —
which names all three required fields — and the store is left untouched
(no insert is attempted). -/
theorem create_falsy_field_rejected (body : CreateBody) (f : List Char) (now : Nat)
    (store : List Post)
    (h : absentOrFalsy body.title ∨ absentOrFalsy body.content ∨ absentOrFalsy body.author) :
    createPost body f now store = (.missingFields missingFieldsMsg, store) ∧
    createStatus (createPost body f now store).1 = 400 ∧
    listContains "title".data missingFieldsMsg = true ∧
    listContains "content".data missingFieldsMsg = true ∧
    listContains "author".data missingFieldsMsg = true := by
  have hb : (jsFalsyField body.title || jsFalsyField body.content
      || jsFalsyField body.author) = true := by
    rcases h with h | h | h <;> rw [jsFalsy_of_absentOrFalsy h] <;> simp
  have hmain : createPost body f now store = (.missingFields missingFieldsMsg, store) := by
    simp [createPost, hb]
  exact ⟨hmain, by rw [hmain]; rfl, by decide, by decide, by decide⟩

/-- C2 witness: a create body with no title at all is rejected with 400. -/
theorem create_falsy_field_rejected_witness :
    (absentOrFalsy (⟨none, some (.jstr "This is long enough content".data),
        some (.jstr "Alice".data), []⟩ : CreateBody).title ∨
      absentOrFalsy (⟨none, some (.jstr "This is long enough content".data),
        some (.jstr "Alice".data), []⟩ : CreateBody).content ∨
      absentOrFalsy (⟨none, some (.jstr "This is long enough content".data),
        some (.jstr "Alice".data), []⟩ : CreateBody).author) ∧
    (createPost ⟨none, some (.jstr "This is long enough content".data),
        some (.jstr "Alice".data), []⟩ demoIdB 5 [] = (.missingFields missingFieldsMsg, []) ∧
     createStatus (createPost ⟨none, some (.jstr "This is long enough content".data),
        some (.jstr "Alice".data), []⟩ demoIdB 5 []).1 = 400 ∧
     listContains "title".data missingFieldsMsg = true ∧
     listContains "content".data missingFieldsMsg = true ∧
     listContains "author".data missingFieldsMsg = true) :=
  ⟨Or.inl (Or.inl rfl),
   create_falsy_field_rejected ⟨none, some (.jstr "This is long enough content".data),
     some (.jstr "Alice".data), []⟩ demoIdB 5 [] (Or.inl (Or.inl rfl))⟩

/-- C3: for every create or update input in which title, content and author
are all provided as strings that are non-empty after trimming (and, for
update, a syntactically valid id) with at least one field violating its
length constraint, the operation replies 400 with a `ValidationError`
payload holding exactly one schema message per violated field — the message
naming that field's specific violation — and the store is untouched. -/
theorem create_update_length_validation :
    (∀ (t c a : List Char) (e : List (List Char × JVal)) (f : List Char) (now : Nat)
        (store : List Post),
      0 < (jsTrim t).length → 0 < (jsTrim c).length → 0 < (jsTrim a).length →
      ((jsTrim t).length < 3 ∨ 100 < (jsTrim t).length ∨ (jsTrim c).length < 10 ∨
        (jsTrim a).length < 2 ∨ 50 < (jsTrim a).length) →
      createPost ⟨some (.jstr t), some (.jstr c), some (.jstr a), e⟩ f now store
        = (.validationFailed (lengthMsgs (jsTrim t) (jsTrim c) (jsTrim a)), store) ∧
      createStatus (createPost ⟨some (.jstr t), some (.jstr c), some (.jstr a), e⟩
        f now store).1 = 400) ∧
    (∀ (t c a : List Char) (e : List (List Char × JVal)) (i : List Char) (now : Nat)
        (store : List Post),
      isValidObjectId i = true →
      0 < (jsTrim t).length → 0 < (jsTrim c).length → 0 < (jsTrim a).length →
      ((jsTrim t).length < 3 ∨ 100 < (jsTrim t).length ∨ (jsTrim c).length < 10 ∨
        (jsTrim a).length < 2 ∨ 50 < (jsTrim a).length) →
      updatePost i ⟨some (.jstr t), some (.jstr c), some (.jstr a), e⟩ now store
        = (.validationFailed (lengthMsgs (jsTrim t) (jsTrim c) (jsTrim a)), store) ∧
      updateStatus (updatePost i ⟨some (.jstr t), some (.jstr c), some (.jstr a), e⟩
        now store).1 = 400) := by
  constructor
  · intro t c a e f now store ht hc ha hviol
    have htne := ne_nil_of_trimLen ht
    have hcne := ne_nil_of_trimLen hc
    have hane := ne_nil_of_trimLen ha
    have hErr := createErrors_jstr t c a e ht hc ha
    have hne := lengthMsgs_ne_nil hviol
    obtain ⟨m, ms, hm⟩ := List.exists_cons_of_ne_nil hne
    have hmain : createPost ⟨some (.jstr t), some (.jstr c), some (.jstr a), e⟩ f now store
        = (.validationFailed (lengthMsgs (jsTrim t) (jsTrim c) (jsTrim a)), store) := by
      simp only [createPost, jsFalsyField_jstr htne, jsFalsyField_jstr hcne,
        jsFalsyField_jstr hane, Bool.or_self, Bool.or_false, Bool.false_or,
        Bool.false_eq_true, if_false, hErr, hm]
    exact ⟨hmain, by rw [hmain]; rfl⟩
  · intro t c a e i now store hv ht hc ha hviol
    have hErr := updateErrors_jstr t c a e ht hc ha
    have hne := lengthMsgs_ne_nil hviol
    obtain ⟨m, ms, hm⟩ := List.exists_cons_of_ne_nil hne
    have hmain : updatePost i ⟨some (.jstr t), some (.jstr c), some (.jstr a), e⟩ now store
        = (.validationFailed (lengthMsgs (jsTrim t) (jsTrim c) (jsTrim a)), store) := by
      simp only [updatePost, hv, Bool.not_true, Bool.false_eq_true, if_false,
        Option.isNone_some, Bool.false_and, Bool.and_false, hErr, hm]
    exact ⟨hmain, by rw [hmain]; rfl⟩

/-- C3 witness: a two-character title (after trimming) is rejected by both
create and update with the title minlength message. -/
theorem create_update_length_validation_witness :
    0 < (jsTrim "ab".data).length ∧ 0 < (jsTrim "0123456789".data).length ∧
    0 < (jsTrim "Al".data).length ∧
    ((jsTrim "ab".data).length < 3 ∨ 100 < (jsTrim "ab".data).length ∨
      (jsTrim "0123456789".data).length < 10 ∨ (jsTrim "Al".data).length < 2 ∨
      50 < (jsTrim "Al".data).length) ∧
    isValidObjectId demoId = true ∧
    (createPost ⟨some (.jstr "ab".data), some (.jstr "0123456789".data),
        some (.jstr "Al".data), []⟩ demoIdB 5 []
      = (.validationFailed (lengthMsgs (jsTrim "ab".data) (jsTrim "0123456789".data)
          (jsTrim "Al".data)), []) ∧
     createStatus (createPost ⟨some (.jstr "ab".data), some (.jstr "0123456789".data),
        some (.jstr "Al".data), []⟩ demoIdB 5 []).1 = 400) ∧
    (updatePost demoId ⟨some (.jstr "ab".data), some (.jstr "0123456789".data),
        some (.jstr "Al".data), []⟩ 5 [demoPost]
      = (.validationFailed (lengthMsgs (jsTrim "ab".data) (jsTrim "0123456789".data)
          (jsTrim "Al".data)), [demoPost]) ∧
     updateStatus (updatePost demoId ⟨some (.jstr "ab".data), some (.jstr "0123456789".data),
        some (.jstr "Al".data), []⟩ 5 [demoPost]).1 = 400) :=
  ⟨by decide, by decide, by decide, by decide, by decide,
   create_update_length_validation.1 "ab".data "0123456789".data "Al".data [] demoIdB 5 []
     (by decide) (by decide) (by decide) (by decide),
   create_update_length_validation.2 "ab".data "0123456789".data "Al".data [] demoId 5 [demoPost]
     (by decide) (by decide) (by decide) (by decide) (by decide)⟩

/-- C4 counterexample: the query value "-5" is parsed by `parseInt` to the
negative integer -5, which is truthy, so the page is neither the default 1
nor a positive integer — refuting the claim that page and limit are always
parsed as positive integers with non-numeric values as the only fallback. -/
theorem list_pagination_claim_cex :
    pageOf (some "-5".data) = -5 ∧ ¬ 0 < pageOf (some "-5".data) ∧
    pageOf (some "-5".data) ≠ 1 ∧ limitOf (some "-7".data) = -7 := by
  decide

/-- C4 (amended): page defaults to 1 and limit to 10; an absent value, a value
`parseInt` cannot parse (NaN), and a value parsing to 0 all fall back to the
defaults, and parsing is total so no error is ever raised; any other parsed
integer — including a negative one — is used as-is. -/
theorem list_pagination_defaults (q : Option (List Char)) :
    (q = none → pageOf q = 1 ∧ limitOf q = 10) ∧
    (∀ s, q = some s → jsParseInt s = none → pageOf q = 1 ∧ limitOf q = 10) ∧
    (∀ s, q = some s → jsParseInt s = some 0 → pageOf q = 1 ∧ limitOf q = 10) ∧
    (∀ s n, q = some s → jsParseInt s = some n → n ≠ 0 → pageOf q = n ∧ limitOf q = n) := by
  refine ⟨?_, ?_, ?_, ?_⟩
  · rintro rfl
    exact ⟨rfl, rfl⟩
  · rintro s rfl h
    simp [pageOf, limitOf, h]
  · rintro s rfl h
    simp [pageOf, limitOf, h]
  · rintro s n rfl h hn
    simp [pageOf, limitOf, h, hn]

/-- C4 witness: the non-numeric value "abc" falls back to both defaults. -/
theorem list_pagination_defaults_witness :
    jsParseInt "abc".data = none ∧
    (pageOf (some "abc".data) = 1 ∧ limitOf (some "abc".data) = 10) :=
  ⟨by decide, (list_pagination_defaults (some "abc".data)).2.1 "abc".data rfl (by decide)⟩

/-- C5: for every filter and positive limit L, the list endpoint reports the
pre-pagination total, the page count `ceil (total / L)`, and serves the slice
obtained by skipping `(page - 1) * L` of the `createdAt`-descending sorted
matching set and taking L; each page is itself sorted, and concatenating
pages 1 through `ceil (total / L)` reproduces the whole sorted matching set —
a permutation of the matching posts, hence with no duplicates or omissions. -/
theorem list_pagination_partition (aq sq : Option (List Char)) (store : List Post)
    (L pg : Nat) (hL : 0 < L) :
    (listPosts aq sq pg L store).total = (store.filter (matchesQuery aq sq)).length ∧
    (listPosts aq sq pg L store).pages
      = jsCeilDiv (store.filter (matchesQuery aq sq)).length L ∧
    (listPosts aq sq pg L store).data
      = ((sortByCreatedAtDesc (store.filter (matchesQuery aq sq))).drop ((pg - 1) * L)).take L ∧
    List.Sorted createdDesc (listPosts aq sq pg L store).data ∧
    ((List.range' 1 (jsCeilDiv (store.filter (matchesQuery aq sq)).length L)).map
        (fun k => (listPosts aq sq k L store).data)).flatten
      = sortByCreatedAtDesc (store.filter (matchesQuery aq sq)) ∧
    (sortByCreatedAtDesc (store.filter (matchesQuery aq sq))).Perm
      (store.filter (matchesQuery aq sq)) := by
  refine ⟨rfl, rfl, rfl, ?_, ?_, perm_sortDesc _⟩
  · exact List.Pairwise.sublist
      ((List.take_sublist _ _).trans (List.drop_sublist _ _))
      (sorted_sortDesc (store.filter (matchesQuery aq sq)))
  · have hlen : (sortByCreatedAtDesc (store.filter (matchesQuery aq sq))).length
        = (store.filter (matchesQuery aq sq)).length := (perm_sortDesc _).length_eq
    have h := flatten_chunks (α := Post) hL
      (sortByCreatedAtDesc (store.filter (matchesQuery aq sq))).length
      (sortByCreatedAtDesc (store.filter (matchesQuery aq sq))) le_rfl
    rw [hlen] at h
    exact h

/-- C5 witness: the three-post store at limit 2: total 3, two pages, and the
two pages concatenate to the full sorted set. -/
theorem list_pagination_partition_witness :
    0 < 2 ∧
    ((listPosts none none 1 2 demoStore).total = (demoStore.filter (matchesQuery none none)).length ∧
     (listPosts none none 1 2 demoStore).pages
       = jsCeilDiv (demoStore.filter (matchesQuery none none)).length 2 ∧
     (listPosts none none 1 2 demoStore).data
       = ((sortByCreatedAtDesc (demoStore.filter (matchesQuery none none))).drop ((1 - 1) * 2)).take 2 ∧
     List.Sorted createdDesc (listPosts none none 1 2 demoStore).data ∧
     ((List.range' 1 (jsCeilDiv (demoStore.filter (matchesQuery none none)).length 2)).map
         (fun k => (listPosts none none k 2 demoStore).data)).flatten
       = sortByCreatedAtDesc (demoStore.filter (matchesQuery none none)) ∧
     (sortByCreatedAtDesc (demoStore.filter (matchesQuery none none))).Perm
       (demoStore.filter (matchesQuery none none))) :=
  ⟨by decide, list_pagination_partition none none demoStore 2 1 (by decide)⟩

/-- C6: with a non-empty search string s, the filtered set holds exactly the
stored posts whose lower-cased title or content contains lower-cased s as a
substring; with a non-empty author string a, exactly those whose lower-cased
author contains lower-cased a; and with both, the conjunction of the author
filter and the title-or-content search. -/
theorem list_search_filter_spec (store : List Post) (p : Post) :
    (∀ s : List Char, s ≠ [] →
      (p ∈ store.filter (matchesQuery none (some s)) ↔
        p ∈ store ∧ (SubStr (lowerStr s) (lowerStr p.title) ∨
          SubStr (lowerStr s) (lowerStr p.content)))) ∧
    (∀ a : List Char, a ≠ [] →
      (p ∈ store.filter (matchesQuery (some a) none) ↔
        p ∈ store ∧ SubStr (lowerStr a) (lowerStr p.author))) ∧
    (∀ a s : List Char, a ≠ [] → s ≠ [] →
      (p ∈ store.filter (matchesQuery (some a) (some s)) ↔
        p ∈ store ∧ (SubStr (lowerStr a) (lowerStr p.author) ∧
          (SubStr (lowerStr s) (lowerStr p.title) ∨
            SubStr (lowerStr s) (lowerStr p.content))))) := by
  refine ⟨?_, ?_, ?_⟩
  · intro s hs
    cases s with
    | nil => exact absurd rfl hs
    | cons c t =>
      rw [List.mem_filter]
      simp [matchesQuery, containsCI, listContains_iff]
  · intro a ha
    cases a with
    | nil => exact absurd rfl ha
    | cons c t =>
      rw [List.mem_filter]
      simp [matchesQuery, containsCI, listContains_iff]
  · intro a s ha hs
    cases a with
    | nil => exact absurd rfl ha
    | cons c t =>
      cases s with
      | nil => exact absurd rfl hs
      | cons d u =>
        rw [List.mem_filter]
        simp [matchesQuery, containsCI, listContains_iff]

/-- C6 witness: searching "mongo" over the three-post store at the newest
post, whose content contains "mongodb". -/
theorem list_search_filter_spec_witness :
    "mongo".data ≠ ([] : List Char) ∧
    (demoPost3 ∈ demoStore.filter (matchesQuery none (some "mongo".data)) ↔
      demoPost3 ∈ demoStore ∧ (SubStr (lowerStr "mongo".data) (lowerStr demoPost3.title) ∨
        SubStr (lowerStr "mongo".data) (lowerStr demoPost3.content))) :=
  ⟨by decide, (list_search_filter_spec demoStore demoPost3).1 "mongo".data (by decide)⟩

/-- C7 counterexample: update with a syntactically valid id, an empty body
and an empty store (so no post matches the id) replies 400 `NoUpdateFields`,
not the 404 the claim promises for every valid-but-unmatched id. -/
theorem id_lookup_claim_cex :
    isValidObjectId demoId = true ∧ findById [] demoId = none ∧
    updatePost demoId emptyUpdate 0 [] = (.noFields noFieldsMsg, []) ∧
    updateStatus (updatePost demoId emptyUpdate 0 []).1 = 400 ∧
    updateStatus (updatePost demoId emptyUpdate 0 []).1 ≠ 404 := by
  decide

/-- C7 (amended): a syntactically invalid id makes GetById, Update and Delete
reply 400 without reading or changing the store; a valid id with no matching
post makes GetById and Delete reply 404 — and Update as well, provided its
body has at least one recognised field and passes validation; and, for a
store with distinct ids, delete followed by get-by-id on the same id replies
404. -/
theorem id_lookup_errors :
    (∀ (i : List Char) (body : UpdateBody) (now : Nat) (store : List Post),
      isValidObjectId i = false →
      getPostById i store = .invalidId invalidIdMsg ∧
      getStatus (getPostById i store) = 400 ∧
      deletePost i store = (.invalidId invalidIdMsg, store) ∧
      deleteStatus (deletePost i store).1 = 400 ∧
      updatePost i body now store = (.invalidId invalidIdMsg, store) ∧
      updateStatus (updatePost i body now store).1 = 400) ∧
    (∀ (i : List Char) (body : UpdateBody) (now : Nat) (store : List Post),
      isValidObjectId i = true → findById store i = none →
      getPostById i store = .notFound notFoundMsg ∧
      getStatus (getPostById i store) = 404 ∧
      deletePost i store = (.notFound notFoundMsg, store) ∧
      deleteStatus (deletePost i store).1 = 404 ∧
      ((body.title ≠ none ∨ body.content ≠ none ∨ body.author ≠ none) →
        updateErrors body = [] →
        updatePost i body now store = (.notFound notFoundMsg, store) ∧
        updateStatus (updatePost i body now store).1 = 404)) ∧
    (∀ (i : List Char) (store : List Post),
      isValidObjectId i = true → (store.map Post.id).Nodup →
      getPostById i (deletePost i store).2 = .notFound notFoundMsg ∧
      getStatus (getPostById i (deletePost i store).2) = 404) := by
  refine ⟨?_, ?_, ?_⟩
  · intro i body now store hv
    refine ⟨?_, ?_, ?_, ?_, ?_, ?_⟩ <;> simp [getPostById, deletePost, updatePost, hv,
      getStatus, deleteStatus, updateStatus]
  · intro i body now store hv hf
    have hget : getPostById i store = .notFound notFoundMsg := by
      simp [getPostById, hv, hf]
    have hdel : deletePost i store = (.notFound notFoundMsg, store) := by
      simp [deletePost, hv, hf]
    refine ⟨hget, by rw [hget]; rfl, hdel, by rw [hdel]; rfl, ?_⟩
    intro hb herr
    have hno : (body.title.isNone && body.content.isNone && body.author.isNone) = false := by
      rcases hb with h | h | h
      · cases htt : body.title with
        | none => exact absurd htt h
        | some v => simp [htt]
      · cases htt : body.content with
        | none => exact absurd htt h
        | some v => simp [htt]
      · cases htt : body.author with
        | none => exact absurd htt h
        | some v => simp [htt]
    have hupd : updatePost i body now store = (.notFound notFoundMsg, store) := by
      simp [updatePost, hv, hno, herr, hf]
    exact ⟨hupd, by rw [hupd]; rfl⟩
  · intro i store hv hnd
    cases hf : findById store i with
    | none =>
      have hdel : (deletePost i store).2 = store := by
        simp [deletePost, hv, hf]
      rw [hdel]
      have hget : getPostById i store = .notFound notFoundMsg := by
        simp [getPostById, hv, hf]
      exact ⟨hget, by rw [hget]; rfl⟩
    | some p =>
      have hdel : (deletePost i store).2 = deleteById store i := by
        simp [deletePost, hv, hf]
      rw [hdel]
      have hget : getPostById i (deleteById store i) = .notFound notFoundMsg := by
        simp [getPostById, hv, findById_deleteById store i hnd]
      exact ⟨hget, by rw [hget]; rfl⟩

/-- C7 witness: the invalid id "xyz" is rejected by all three operations; the
valid but unmatched `demoIdB` is 404 on the one-post store; and deleting
`demoId` from the three-post store then fetching it replies 404. -/
theorem id_lookup_errors_witness :
    isValidObjectId "xyz".data = false ∧
    (getPostById "xyz".data [demoPost] = .invalidId invalidIdMsg ∧
     getStatus (getPostById "xyz".data [demoPost]) = 400 ∧
     deletePost "xyz".data [demoPost] = (.invalidId invalidIdMsg, [demoPost]) ∧
     deleteStatus (deletePost "xyz".data [demoPost]).1 = 400 ∧
     updatePost "xyz".data demoTitleUpdate 3 [demoPost] = (.invalidId invalidIdMsg, [demoPost]) ∧
     updateStatus (updatePost "xyz".data demoTitleUpdate 3 [demoPost]).1 = 400) ∧
    isValidObjectId demoIdB = true ∧ findById [demoPost] demoIdB = none ∧
    (getPostById demoIdB [demoPost] = .notFound notFoundMsg ∧
     getStatus (getPostById demoIdB [demoPost]) = 404 ∧
     deletePost demoIdB [demoPost] = (.notFound notFoundMsg, [demoPost]) ∧
     deleteStatus (deletePost demoIdB [demoPost]).1 = 404 ∧
     ((demoTitleUpdate.title ≠ none ∨ demoTitleUpdate.content ≠ none ∨
        demoTitleUpdate.author ≠ none) →
       updateErrors demoTitleUpdate = [] →
       updatePost demoIdB demoTitleUpdate 3 [demoPost] = (.notFound notFoundMsg, [demoPost]) ∧
       updateStatus (updatePost demoIdB demoTitleUpdate 3 [demoPost]).1 = 404)) ∧
    (demoStore.map Post.id).Nodup ∧
    (getPostById demoId (deletePost demoId demoStore).2 = .notFound notFoundMsg ∧
     getStatus (getPostById demoId (deletePost demoId demoStore).2) = 404) :=
  ⟨by decide,
   id_lookup_errors.1 "xyz".data demoTitleUpdate 3 [demoPost] (by decide),
   by decide, by decide,
   id_lookup_errors.2.1 demoIdB demoTitleUpdate 3 [demoPost] (by decide) (by decide),
   by decide,
   id_lookup_errors.2.2 demoId demoStore (by decide) (by decide)⟩

lemma titleError_nullish {v : JVal} (h : v = .jnull ∨ ∃ s, v = .jstr s ∧ jsTrim s = []) :
    titleError (trimCast v) = some titleMsgReq := by
  rcases h with rfl | ⟨s, rfl, hs⟩
  · rfl
  · show titleError (some (jsTrim s)) = _
    rw [hs]
    rfl

lemma contentError_nullish {v : JVal} (h : v = .jnull ∨ ∃ s, v = .jstr s ∧ jsTrim s = []) :
    contentError (trimCast v) = some contentMsgReq := by
  rcases h with rfl | ⟨s, rfl, hs⟩
  · rfl
  · show contentError (some (jsTrim s)) = _
    rw [hs]
    rfl

lemma authorError_nullish {v : JVal} (h : v = .jnull ∨ ∃ s, v = .jstr s ∧ jsTrim s = []) :
    authorError (trimCast v) = some authorMsgReq := by
  rcases h with rfl | ⟨s, rfl, hs⟩
  · rfl
  · show authorError (some (jsTrim s)) = _
    rw [hs]
    rfl

lemma updatePost_validationFailed (i : List Char) (body : UpdateBody) (now : Nat)
    (store : List Post) (m : List Char) (hv : isValidObjectId i = true)
    (hno : (body.title.isNone && body.content.isNone && body.author.isNone) = false)
    (hmem : m ∈ updateErrors body) :
    ∃ msgs, updatePost i body now store = (.validationFailed msgs, store) ∧ m ∈ msgs ∧
      updateStatus (.validationFailed msgs) = 400 := by
  obtain ⟨e, es, hee⟩ := List.exists_cons_of_ne_nil (List.ne_nil_of_mem hmem)
  refine ⟨e :: es, ?_, hee ▸ hmem, rfl⟩
  simp only [updatePost, hv, Bool.not_true, Bool.false_eq_true, if_false, hno, hee]

/-- C8 (amended): for every update request with a syntactically valid id:
when none of the three recognised fields is present the reply is 400
`NoUpdateFields` and the store is untouched; a field explicitly set to null
or to a string that is empty after trimming is not treated as unchanged but
reaches validation and fails that field's required-field (presence)
constraint — 400 with the field's "is required" message; and in a merged
update an absent (undefined) field keeps the stored value. -/
theorem update_field_selection :
    (∀ (i : List Char) (body : UpdateBody) (now : Nat) (store : List Post),
      isValidObjectId i = true →
      body.title = none → body.content = none → body.author = none →
      updatePost i body now store = (.noFields noFieldsMsg, store) ∧
      updateStatus (updatePost i body now store).1 = 400) ∧
    (∀ (i : List Char) (body : UpdateBody) (now : Nat) (store : List Post) (v : JVal),
      isValidObjectId i = true → body.title = some v →
      (v = .jnull ∨ ∃ s, v = .jstr s ∧ jsTrim s = []) →
      ∃ msgs, updatePost i body now store = (.validationFailed msgs, store) ∧
        titleMsgReq ∈ msgs ∧ updateStatus (.validationFailed msgs) = 400) ∧
    (∀ (i : List Char) (body : UpdateBody) (now : Nat) (store : List Post) (v : JVal),
      isValidObjectId i = true → body.content = some v →
      (v = .jnull ∨ ∃ s, v = .jstr s ∧ jsTrim s = []) →
      ∃ msgs, updatePost i body now store = (.validationFailed msgs, store) ∧
        contentMsgReq ∈ msgs ∧ updateStatus (.validationFailed msgs) = 400) ∧
    (∀ (i : List Char) (body : UpdateBody) (now : Nat) (store : List Post) (v : JVal),
      isValidObjectId i = true → body.author = some v →
      (v = .jnull ∨ ∃ s, v = .jstr s ∧ jsTrim s = []) →
      ∃ msgs, updatePost i body now store = (.validationFailed msgs, store) ∧
        authorMsgReq ∈ msgs ∧ updateStatus (.validationFailed msgs) = 400) ∧
    (∀ (p : Post) (body : UpdateBody) (now : Nat),
      (body.title = none → (mergePost p body now).title = p.title) ∧
      (body.content = none → (mergePost p body now).content = p.content) ∧
      (body.author = none → (mergePost p body now).author = p.author)) := by
  refine ⟨?_, ?_, ?_, ?_, ?_⟩
  · intro i body now store hv h1 h2 h3
    have hno : (body.title.isNone && body.content.isNone && body.author.isNone) = true := by
      rw [h1, h2, h3]
      rfl
    have hmain : updatePost i body now store = (.noFields noFieldsMsg, store) := by
      simp [updatePost, hv, hno]
    exact ⟨hmain, by rw [hmain]; rfl⟩
  · intro i body now store v hv hbt hval
    have hno : (body.title.isNone && body.content.isNone && body.author.isNone) = false := by
      rw [hbt]
      rfl
    have hmem : titleMsgReq ∈ updateErrors body := by
      unfold updateErrors
      rw [filterMap_id_three, hbt]
      simp [titleError_nullish hval]
    exact updatePost_validationFailed i body now store titleMsgReq hv hno hmem
  · intro i body now store v hv hbc hval
    have hno : (body.title.isNone && body.content.isNone && body.author.isNone) = false := by
      rw [hbc]
      simp
    have hmem : contentMsgReq ∈ updateErrors body := by
      unfold updateErrors
      rw [filterMap_id_three, hbc]
      simp [contentError_nullish hval]
    exact updatePost_validationFailed i body now store contentMsgReq hv hno hmem
  · intro i body now store v hv hba hval
    have hno : (body.title.isNone && body.content.isNone && body.author.isNone) = false := by
      rw [hba]
      simp
    have hmem : authorMsgReq ∈ updateErrors body := by
      unfold updateErrors
      rw [filterMap_id_three, hba]
      simp [authorError_nullish hval]
    exact updatePost_validationFailed i body now store authorMsgReq hv hno hmem
  · intro p body now
    refine ⟨?_, ?_, ?_⟩ <;> intro h <;> simp [mergePost, h]

/-- C8 counterexample: updating the title to the empty string fails with the
required-field message "Title is required", not the minimum-length message
"Title must be at least 3 characters long" that the claim names. -/
theorem update_empty_value_claim_cex :
    updatePost demoId ⟨some (.jstr []), none, none, []⟩ 99 [demoPost]
      = (.validationFailed [titleMsgReq], [demoPost]) ∧
    titleMsgReq ≠ titleMsgMin ∧
    ¬ titleMsgMin ∈ [titleMsgReq] := by
  decide

/-- C8 witness: an empty update body is rejected with 400, and a title
explicitly set to the empty string reaches validation and fails it. -/
theorem update_field_selection_witness :
    isValidObjectId demoId = true ∧
    emptyUpdate.title = none ∧ emptyUpdate.content = none ∧ emptyUpdate.author = none ∧
    (updatePost demoId emptyUpdate 0 [demoPost] = (.noFields noFieldsMsg, [demoPost]) ∧
     updateStatus (updatePost demoId emptyUpdate 0 [demoPost]).1 = 400) ∧
    (⟨some (.jstr []), none, none, []⟩ : UpdateBody).title = some (.jstr []) ∧
    ((JVal.jstr [] = .jnull ∨ ∃ s, JVal.jstr [] = .jstr s ∧ jsTrim s = []) ∧
     (∃ msgs, updatePost demoId ⟨some (.jstr []), none, none, []⟩ 99 [demoPost]
        = (.validationFailed msgs, [demoPost]) ∧ titleMsgReq ∈ msgs ∧
        updateStatus (.validationFailed msgs) = 400)) :=
  ⟨by decide, rfl, rfl, rfl,
   update_field_selection.1 demoId emptyUpdate 0 [demoPost] (by decide) rfl rfl rfl,
   rfl,
   Or.inr ⟨[], rfl, rfl⟩,
   update_field_selection.2.1 demoId ⟨some (.jstr []), none, none, []⟩ 99 [demoPost]
     (.jstr []) (by decide) rfl (Or.inr ⟨[], rfl, rfl⟩)⟩

/-- C9: whenever an update on an existing post succeeds, only the provided
fields change: every absent (undefined) field keeps its stored value,
`createdAt` is unchanged, `updatedAt` becomes the update time — so it
strictly increases whenever the clock has advanced — and the
`createdAt ≤ updatedAt` invariant is preserved. -/
theorem update_frame_preservation (i : List Char) (body : UpdateBody) (now : Nat)
    (store : List Post) (p q : Post)
    (hfind : findById store i = some p)
    (hupd : (updatePost i body now store).1 = .updated q) :
    q.createdAt = p.createdAt ∧
    q.updatedAt = now ∧
    (body.title = none → q.title = p.title) ∧
    (body.content = none → q.content = p.content) ∧
    (body.author = none → q.author = p.author) ∧
    (p.updatedAt < now → p.updatedAt < q.updatedAt) ∧
    (p.createdAt ≤ p.updatedAt → p.updatedAt < now → q.createdAt ≤ q.updatedAt) := by
  by_cases hv : isValidObjectId i = true
  · by_cases hno : (body.title.isNone && body.content.isNone && body.author.isNone) = true
    · exfalso
      simp [updatePost, hv, hno] at hupd
    · have hno2 : (body.title.isNone && body.content.isNone && body.author.isNone) = false := by
        cases hx : (body.title.isNone && body.content.isNone && body.author.isNone) with
        | true => exact absurd hx hno
        | false => rfl
      cases herr : updateErrors body with
      | cons e es =>
        exfalso
        simp [updatePost, hv, hno2, herr] at hupd
      | nil =>
        simp only [updatePost, hv, Bool.not_true, Bool.false_eq_true, if_false, hno2,
          herr, hfind] at hupd
        have hq : mergePost p body now = q := by
          injection hupd
        subst hq
        refine ⟨rfl, rfl, ?_, ?_, ?_, ?_, ?_⟩
        · intro h
          simp [mergePost, h]
        · intro h
          simp [mergePost, h]
        · intro h
          simp [mergePost, h]
        · intro h
          exact h
        · intro h1 h2
          exact Nat.le_of_lt (Nat.lt_of_le_of_lt h1 h2)
  · exfalso
    have hv2 : isValidObjectId i = false := by
      cases hx : isValidObjectId i with
      | true => exact absurd hx hv
      | false => rfl
    simp [updatePost, hv2] at hupd

/-- C9 witness: a title-only update of the sample post at time 7: content,
author and `createdAt` are unchanged and `updatedAt` becomes 7. -/
theorem update_frame_preservation_witness :
    findById [demoPost] demoId = some demoPost ∧
    (updatePost demoId demoTitleUpdate 7 [demoPost]).1 = .updated demoPostUpd ∧
    (demoPostUpd.createdAt = demoPost.createdAt ∧
     demoPostUpd.updatedAt = 7 ∧
     (demoTitleUpdate.title = none → demoPostUpd.title = demoPost.title) ∧
     (demoTitleUpdate.content = none → demoPostUpd.content = demoPost.content) ∧
     (demoTitleUpdate.author = none → demoPostUpd.author = demoPost.author) ∧
     (demoPost.updatedAt < 7 → demoPost.updatedAt < demoPostUpd.updatedAt) ∧
     (demoPost.createdAt ≤ demoPost.updatedAt → demoPost.updatedAt < 7 →
       demoPostUpd.createdAt ≤ demoPostUpd.updatedAt)) :=
  ⟨by decide, by decide,
   update_frame_preservation demoId demoTitleUpdate 7 [demoPost] demoPost demoPostUpd
     (by decide) (by decide)⟩

/-- C10: create and update read only the three recognised body fields — two
bodies agreeing on title, content and author produce identical outcomes no
matter what other keys (id, createdAt, ...) the client sent — and on every
successful create the persisted id and both timestamps are exactly the
system-generated ones. -/
theorem body_extra_fields_ignored :
    (∀ (b1 b2 : CreateBody) (f : List Char) (now : Nat) (store : List Post),
      b1.title = b2.title → b1.content = b2.content → b1.author = b2.author →
      createPost b1 f now store = createPost b2 f now store) ∧
    (∀ (b1 b2 : UpdateBody) (i : List Char) (now : Nat) (store : List Post),
      b1.title = b2.title → b1.content = b2.content → b1.author = b2.author →
      updatePost i b1 now store = updatePost i b2 now store) ∧
    (∀ (b : CreateBody) (f : List Char) (now : Nat) (store : List Post) (p : Post),
      (createPost b f now store).1 = .created p →
      p.id = f ∧ p.createdAt = now ∧ p.updatedAt = now) := by
  refine ⟨?_, ?_, ?_⟩
  · rintro ⟨t1, c1, a1, e1⟩ ⟨t2, c2, a2, e2⟩ f now store h1 h2 h3
    dsimp only at h1 h2 h3
    subst h1
    subst h2
    subst h3
    rfl
  · rintro ⟨t1, c1, a1, e1⟩ ⟨t2, c2, a2, e2⟩ i now store h1 h2 h3
    dsimp only at h1 h2 h3
    subst h1
    subst h2
    subst h3
    rfl
  · intro b f now store p h
    by_cases hb : (jsFalsyField b.title || jsFalsyField b.content || jsFalsyField b.author) = true
    · exfalso
      simp [createPost, hb] at h
    · have hb2 : (jsFalsyField b.title || jsFalsyField b.content
          || jsFalsyField b.author) = false := by
        cases hx : (jsFalsyField b.title || jsFalsyField b.content || jsFalsyField b.author) with
        | true => exact absurd hx hb
        | false => rfl
      cases herr : createErrors b with
      | cons e es =>
        exfalso
        simp [createPost, hb2, herr] at h
      | nil =>
        simp only [createPost, hb2, Bool.false_eq_true, if_false, herr] at h
        injection h with h2
        subst h2
        exact ⟨rfl, rfl, rfl⟩

/-- C10 witness: adding client-supplied `id` and `createdAt` keys to a create
body changes nothing, and the persisted id and timestamps are the
system-generated ones. -/
theorem body_extra_fields_ignored_witness :
    demoBodyExtra.title = demoBodyNum.title ∧
    demoBodyExtra.content = demoBodyNum.content ∧
    demoBodyExtra.author = demoBodyNum.author ∧
    createPost demoBodyExtra demoIdB 5 [] = createPost demoBodyNum demoIdB 5 [] ∧
    ((createPost demoBodyNum demoIdB 5 []).1
       = .created ⟨demoIdB, "123".data, "This is long enough content".data, "Alice".data, 5, 5⟩ ∧
     ((⟨demoIdB, "123".data, "This is long enough content".data, "Alice".data, 5, 5⟩ : Post).id
        = demoIdB ∧
      (⟨demoIdB, "123".data, "This is long enough content".data, "Alice".data, 5, 5⟩ : Post).createdAt
        = 5 ∧
      (⟨demoIdB, "123".data, "This is long enough content".data, "Alice".data, 5, 5⟩ : Post).updatedAt
        = 5)) :=
  ⟨rfl, rfl, rfl,
   body_extra_fields_ignored.1 demoBodyExtra demoBodyNum demoIdB 5 [] rfl rfl rfl,
   by decide,
   body_extra_fields_ignored.2.2 demoBodyNum demoIdB 5 []
     ⟨demoIdB, "123".data, "This is long enough content".data, "Alice".data, 5, 5⟩
     (by decide)⟩
